import Mathlib

/-!
Shallow embedding of the signal-derivation pipeline of `src/server.js`
(class AdvancedCryptoBot and the watchlist routes).

JavaScript numbers are modelled as rationals (ℚ); every comparison the
pipeline performs is an order comparison, so ℚ is faithful for them.
JavaScript `null` / thrown-and-caught exceptions are modelled with
`Option`. Strings keep their literal content; the numeric interpolation
inside signal descriptions (e.g. `rsi.toFixed(2)`) is elided, since no
code path inspects the description text.
-/

namespace YenAiBot

/-- One OHLCV candle as produced by fetchOHLCV (src/server.js lines 29-36).
The JS field `open` is renamed `opn` (Lean keyword). -/
structure Candle where
  timestamp : Int
  opn : ℚ
  high : ℚ
  low : ℚ
  close : ℚ
  volume : ℚ
  deriving DecidableEq

/-- Default candle used to totalize JS index accesses; the guarded code
paths never reach it. -/
def defaultCandle : Candle := ⟨0, 0, 0, 0, 0, 0⟩

/-- The MACD composite value (MACD, signal, histogram fields; line 102). -/
structure MACDValue where
  MACD : ℚ
  signal : ℚ
  histogram : ℚ
  deriving DecidableEq

/-- The Bollinger Bands composite value (upper, middle, lower fields; line 103). -/
structure BBValue where
  upper : ℚ
  middle : ℚ
  lower : ℚ
  deriving DecidableEq

/-- The Stochastic composite value (k and d fields; line 109). -/
structure StochValue where
  k : ℚ
  d : ℚ
  deriving DecidableEq

/-- The record returned by calculateIndicators (lines 100-111). -/
structure IndicatorSnapshot where
  rsi : ℚ
  macd : MACDValue
  bb : BBValue
  sma20 : ℚ
  sma50 : ℚ
  sma200 : ℚ
  ema12 : ℚ
  ema26 : ℚ
  stoch : StochValue
  atr : ℚ
  deriving DecidableEq

/-- An all-zero snapshot, handy for concrete instantiations. -/
def zeroSnapshot : IndicatorSnapshot :=
  ⟨0, ⟨0, 0, 0⟩, ⟨0, 0, 0⟩, 0, 0, 0, 0, 0, ⟨0, 0⟩, 0⟩

/-- A trading signal with a type and a description (e.g. line 125). -/
structure Signal where
  type : String
  description : String
  deriving DecidableEq

/-- The sentiment record of sentiment label and score returned on line 209. -/
structure SentimentResult where
  sentiment : String
  score : Int
  deriving DecidableEq

/-- The record analyzeCoin returns on success (lines 250-260). -/
structure AnalysisResult where
  symbol : String
  currentPrice : ℚ
  volume24h : ℚ
  indicators : IndicatorSnapshot
  signals : List Signal
  sentiment : SentimentResult
  support : Option ℚ
  resistance : Option ℚ
  timestamp : Int
  deriving DecidableEq

/-- Does the pattern occur at the head of the text?  Helper for
`jsIncludes`. -/
def headMatch : List Char → List Char → Bool
  | [], _ => true
  | _ :: _, [] => false
  | a :: as, b :: bs => a == b && headMatch as bs

/-- Does the pattern occur contiguously anywhere in the text? -/
def hasSubSeq : List Char → List Char → Bool
  | sub, [] => sub.isEmpty
  | sub, c :: t => headMatch sub (c :: t) || hasSubSeq sub t

/-- JavaScript `s.includes(sub)`: contiguous substring test. -/
def jsIncludes (s sub : String) : Bool := hasSubSeq sub.data s.data

/-- JavaScript `arr.slice(-n)`: the trailing n elements (all of them when
the array is shorter). -/
def jsSliceLast (n : Nat) (l : List Candle) : List Candle :=
  l.drop (l.length - n)

/-- JavaScript `arr[0] || null` on an array of numbers: the first element,
except that an empty array or a first element equal to 0 (falsy) gives
null (lines 257-258). -/
def jsFirstOrNull : List ℚ → Option ℚ
  | [] => none
  | x :: _ => if x = 0 then none else some x

/-- The external `technicalindicators` library, abstracted as the family
of series calculators that calculateIndicators invokes (lines 52-98).
Each returns the full indicator series for the given inputs; on
insufficient input the library returns the empty series. -/
structure TILib where
  rsi : List ℚ → List ℚ
  macd : List ℚ → List MACDValue
  bb : List ℚ → List BBValue
  sma : Nat → List ℚ → List ℚ
  ema : Nat → List ℚ → List ℚ
  stoch : List ℚ → List ℚ → List ℚ → List StochValue
  atr : List ℚ → List ℚ → List ℚ → List ℚ

/-- The close series `data.map(d => d.close)` (line 45). -/
def closesOf (data : List Candle) : List ℚ := data.map Candle.close

/-- The high series (line 46). -/
def highsOf (data : List Candle) : List ℚ := data.map Candle.high

/-- The low series (line 47). -/
def lowsOf (data : List Candle) : List ℚ := data.map Candle.low

/-- calculateIndicators (src/server.js lines 44-116): runs every series
calculator on the candle data and keeps the last element of each series,
substituting the zero default when the series is empty (the JS
`series[series.length - 1] || default`). The try/catch makes the JS
function return null only if the library itself throws; the pure model is
total, so the result is always `some`. -/
def calculateIndicators (lib : TILib) (data : List Candle) :
    Option IndicatorSnapshot :=
  let closes := closesOf data
  let highs := highsOf data
  let lows := lowsOf data
  let rsi := lib.rsi closes
  let macd := lib.macd closes
  let bb := lib.bb closes
  let sma20 := lib.sma 20 closes
  let sma50 := lib.sma 50 closes
  let sma200 := lib.sma 200 closes
  let ema12 := lib.ema 12 closes
  let ema26 := lib.ema 26 closes
  let stoch := lib.stoch highs lows closes
  let atr := lib.atr highs lows closes
  some
    { rsi := rsi.getLastD 0
      macd := macd.getLastD ⟨0, 0, 0⟩
      bb := bb.getLastD ⟨0, 0, 0⟩
      sma20 := sma20.getLastD 0
      sma50 := sma50.getLastD 0
      sma200 := sma200.getLastD 0
      ema12 := ema12.getLastD 0
      ema26 := ema26.getLastD 0
      stoch := stoch.getLastD ⟨0, 0⟩
      atr := atr.getLastD 0 }

/-- rsiDivergenceStrategy (lines 119-135).  The source also binds
`currentPrice = data[data.length - 1].close` but never uses it; the
binding is kept (underscored) for fidelity. -/
def rsiDivergenceStrategy (data : List Candle) (indicators : IndicatorSnapshot) :
    List Signal :=
  let rsi := indicators.rsi
  let _currentPrice := (data.getD (data.length - 1) defaultCandle).close
  if rsi < 25 then
    [⟨"STRONG BUY", "RSI extremely oversold"⟩]
  else if rsi < 35 then
    [⟨"BUY", "RSI oversold"⟩]
  else if rsi > 75 then
    [⟨"STRONG SELL", "RSI extremely overbought"⟩]
  else if rsi > 65 then
    [⟨"SELL", "RSI overbought"⟩]
  else []

/-- macdCrossoverStrategy (lines 138-149). -/
def macdCrossoverStrategy (data : List Candle) (indicators : IndicatorSnapshot) :
    List Signal :=
  let macd := indicators.macd
  let _data := data
  if macd.MACD > macd.signal ∧ macd.histogram > 0 then
    [⟨"BUY", "MACD bullish crossover"⟩]
  else if macd.MACD < macd.signal ∧ macd.histogram < 0 then
    [⟨"SELL", "MACD bearish crossover"⟩]
  else []

/-- bollingerBandsStrategy (lines 152-164). -/
def bollingerBandsStrategy (data : List Candle) (indicators : IndicatorSnapshot) :
    List Signal :=
  let currentPrice := (data.getD (data.length - 1) defaultCandle).close
  let bb := indicators.bb
  if currentPrice < bb.lower then
    [⟨"BUY", "Price broke below lower Bollinger Band"⟩]
  else if currentPrice > bb.upper then
    [⟨"SELL", "Price broke above upper Bollinger Band"⟩]
  else []

/-- volumeBreakoutStrategy (lines 167-185). -/
def volumeBreakoutStrategy (data : List Candle) : List Signal :=
  if data.length < 21 then []
  else
    let current := data.getD (data.length - 1) defaultCandle
    let previous := data.getD (data.length - 2) defaultCandle
    let avgVolume := ((jsSliceLast 20 data).foldl (fun sum d => sum + d.volume) 0) / 20
    let priceChange := ((current.close - previous.close) / previous.close) * 100
    if current.volume > avgVolume * 2 then
      if priceChange > 2 then
        [⟨"STRONG BUY", "High volume breakout"⟩]
      else if priceChange < -2 then
        [⟨"STRONG SELL", "High volume breakdown"⟩]
      else []
    else []

/-- The per-signal score contribution: the body of the forEach on
lines 191-201, with `signal.type.includes(...)` substring tests. -/
def signalScore (s : Signal) : Int :=
  if jsIncludes s.type "STRONG BUY" || jsIncludes s.type "BULLISH" then 3
  else if jsIncludes s.type "BUY" then 1
  else if jsIncludes s.type "STRONG SELL" || jsIncludes s.type "BEARISH" then -3
  else if jsIncludes s.type "SELL" then -1
  else 0

/-- analyzeSentiment (lines 188-210): accumulate the score over the
signal list, then classify it. -/
def analyzeSentiment (signals : List Signal) : SentimentResult :=
  let score := signals.foldl (fun acc s => acc + signalScore s) 0
  let sentiment :=
    if score > 5 then "VERY BULLISH"
    else if score > 2 then "BULLISH"
    else if score < -5 then "VERY BEARISH"
    else if score < -2 then "BEARISH"
    else "NEUTRAL"
  ⟨sentiment, score⟩

/-- The ascending-sorted qualifying highs (lines 240-243): highs of the
trailing 50 candles strictly above the current price, sorted by
`(a, b) => a - b`. -/
def resistanceLevels (data : List Candle) (currentPrice : ℚ) : List ℚ :=
  List.insertionSort (fun a b => a ≤ b)
    (((jsSliceLast 50 data).filter (fun d => decide (d.high > currentPrice))).map Candle.high)

/-- The descending-sorted qualifying lows (lines 245-248). -/
def supportLevels (data : List Candle) (currentPrice : ℚ) : List ℚ :=
  List.insertionSort (fun a b => a ≥ b)
    (((jsSliceLast 50 data).filter (fun d => decide (d.low < currentPrice))).map Candle.low)

/-- `resistanceLevels[0] || null` (line 258). -/
def resistanceOf (data : List Candle) (currentPrice : ℚ) : Option ℚ :=
  jsFirstOrNull (resistanceLevels data currentPrice)

/-- `supportLevels[0] || null` (line 257). -/
def supportOf (data : List Candle) (currentPrice : ℚ) : Option ℚ :=
  jsFirstOrNull (supportLevels data currentPrice)

/-- The concatenated signal list of line 233. -/
def allSignalsOf (data : List Candle) (indicators : IndicatorSnapshot) : List Signal :=
  rsiDivergenceStrategy data indicators ++ macdCrossoverStrategy data indicators ++
    bollingerBandsStrategy data indicators ++ volumeBreakoutStrategy data

/-- analyzeCoin (lines 213-265).  The external candle fetch is passed in
as its result (`none` models fetchOHLCV returning null), and the
indicator engine as the function `calc` (its JS counterpart returns null
on internal failure, modelled by `none`).  Every `throw` lands in the
surrounding catch, which returns null: modelled as `none`.  `now` stands
for `new Date()`. -/
def analyzeCoin (calcInd : List Candle → Option IndicatorSnapshot) (symbol : String)
    (fetchResult : Option (List Candle)) (now : Int) : Option AnalysisResult :=
  match fetchResult with
  | none => none
  | some data =>
    if data.length < 200 then none
    else
      match calcInd data with
      | none => none
      | some indicators =>
        match data.getLast? with
        | none => none
        | some latest =>
          let allSignals := allSignalsOf data indicators
          let sentimentData := analyzeSentiment allSignals
          let currentPrice := latest.close
          some
            { symbol := symbol
              currentPrice := latest.close
              volume24h := latest.volume
              indicators := indicators
              signals := allSignals
              sentiment := sentimentData
              support := supportOf data currentPrice
              resistance := resistanceOf data currentPrice
              timestamp := now }

/-- Erase the timestamp field, for comparing two runs (spec section 8). -/
def stripTimestamp (r : AnalysisResult) : AnalysisResult :=
  { r with timestamp := 0 }

/-- The watchlist-add route (lines 342-348): push the symbol unless the
array already includes it. -/
def watchlistAdd (wl : List String) (symbol : String) : List String :=
  if wl.contains symbol then wl else wl ++ [symbol]

/-- The watchlist-delete route (lines 350-354): keep the entries
different from the symbol. -/
def watchlistRemove (wl : List String) (symbol : String) : List String :=
  wl.filter (fun s => s != symbol)

end YenAiBot

namespace YenAiBot

/-! ## Helper lemmas -/

/-- Folding an accumulate-with-`f` step equals adding the sum of the
mapped list. -/
theorem foldl_add_map {α M : Type} [AddCommMonoid M] (f : α → M) :
    ∀ (l : List α) (acc : M), l.foldl (fun a x => a + f x) acc = acc + (l.map f).sum
  | [], acc => by simp
  | x :: t, acc => by
    simp [foldl_add_map f t (acc + f x), add_assoc]

/-- The head of an ascending insertion sort is a least element. -/
theorem head_of_sort_le (l : List ℚ) (x : ℚ)
    (h : (List.insertionSort (fun a b => a ≤ b) l).head? = some x) :
    x ∈ l ∧ ∀ y ∈ l, x ≤ y := by
  have hs := List.sorted_insertionSort (fun a b : ℚ => a ≤ b) l
  have hp := List.perm_insertionSort (fun a b : ℚ => a ≤ b) l
  cases hL : List.insertionSort (fun a b : ℚ => a ≤ b) l with
  | nil => rw [hL] at h; simp at h
  | cons a t =>
    rw [hL] at h hs hp
    simp only [List.head?_cons, Option.some.injEq] at h
    rw [← h]
    have hmem : a ∈ l := hp.mem_iff.mp (List.mem_cons_self a t)
    refine ⟨hmem, fun y hy => ?_⟩
    have hy2 : y ∈ a :: t := hp.mem_iff.mpr hy
    rcases List.mem_cons.mp hy2 with rfl | hyt
    · exact le_refl y
    · exact (List.sorted_cons.mp hs).1 y hyt

/-- The head of a descending insertion sort is a greatest element. -/
theorem head_of_sort_ge (l : List ℚ) (x : ℚ)
    (h : (List.insertionSort (fun a b => a ≥ b) l).head? = some x) :
    x ∈ l ∧ ∀ y ∈ l, y ≤ x := by
  have hs := List.sorted_insertionSort (fun a b : ℚ => a ≥ b) l
  have hp := List.perm_insertionSort (fun a b : ℚ => a ≥ b) l
  cases hL : List.insertionSort (fun a b : ℚ => a ≥ b) l with
  | nil => rw [hL] at h; simp at h
  | cons a t =>
    rw [hL] at h hs hp
    simp only [List.head?_cons, Option.some.injEq] at h
    rw [← h]
    have hmem : a ∈ l := hp.mem_iff.mp (List.mem_cons_self a t)
    refine ⟨hmem, fun y hy => ?_⟩
    have hy2 : y ∈ a :: t := hp.mem_iff.mpr hy
    rcases List.mem_cons.mp hy2 with rfl | hyt
    · exact le_refl y
    · exact (List.sorted_cons.mp hs).1 y hyt

/-- An insertion sort is empty exactly when its input is. -/
theorem sort_eq_nil_iff (r : ℚ → ℚ → Prop) [DecidableRel r] (l : List ℚ) :
    List.insertionSort r l = [] ↔ l = [] := by
  constructor
  · intro h
    have hp := List.perm_insertionSort r l
    rw [h] at hp
    exact hp.symm.eq_nil
  · rintro rfl; rfl

/-! ## C1: sentiment aggregator -/

/-- The claim's per-signal contribution, written from the spec: STRONG
BUY or a bullish marker is +3, else BUY is +1, else STRONG SELL or a
bearish marker is -3, else SELL is -1, else 0, by substring match. -/
def claimSignalScore (s : Signal) : Int :=
  if jsIncludes s.type "STRONG BUY" || jsIncludes s.type "BULLISH" then 3
  else if jsIncludes s.type "BUY" then 1
  else if jsIncludes s.type "STRONG SELL" || jsIncludes s.type "BEARISH" then -3
  else if jsIncludes s.type "SELL" then -1
  else 0

/-- The claim's total: the sum of per-signal contributions. -/
def claimScore (signals : List Signal) : Int :=
  (signals.map claimSignalScore).sum

/-- The claim's classification with strict inequalities. -/
def claimClassify (score : Int) : String :=
  if score > 5 then "VERY BULLISH"
  else if score > 2 then "BULLISH"
  else if score < -5 then "VERY BEARISH"
  else if score < -2 then "BEARISH"
  else "NEUTRAL"

/-- C1: the sentiment aggregator computes the score as the sum of
per-signal substring-matched contributions in precedence order and
classifies it with strict inequalities; [STRONG BUY, BUY] scores 4
(BULLISH), [STRONG BUY, STRONG BUY] scores 6 (VERY BULLISH), and the
empty list scores 0 (NEUTRAL). -/
theorem claim1_sentiment_aggregator :
    (∀ signals : List Signal,
        analyzeSentiment signals = ⟨claimClassify (claimScore signals), claimScore signals⟩) ∧
    analyzeSentiment [⟨"STRONG BUY", ""⟩, ⟨"BUY", ""⟩] = ⟨"BULLISH", 4⟩ ∧
    analyzeSentiment [⟨"STRONG BUY", ""⟩, ⟨"STRONG BUY", ""⟩] = ⟨"VERY BULLISH", 6⟩ ∧
    analyzeSentiment [] = ⟨"NEUTRAL", 0⟩ := by
  refine ⟨fun signals => ?_, by decide, by decide, by decide⟩
  have hscore : signals.foldl (fun acc s => acc + signalScore s) 0 = claimScore signals := by
    rw [foldl_add_map signalScore signals 0, zero_add]
    rfl
  simp only [analyzeSentiment, hscore, claimClassify]

end YenAiBot

namespace YenAiBot

/-! ## C2: RSI strategy -/

/-- A snapshot whose RSI is x and whose other indicators are zero. -/
def rsiSnap (x : ℚ) : IndicatorSnapshot := { zeroSnapshot with rsi := x }

/-- C2: on a non-empty candle list the RSI strategy emits exactly the
signal dictated by the latest RSI value (STRONG BUY below 25, BUY on
[25,35), STRONG SELL above 75, SELL on (65,75], nothing on [35,65]);
RSI=65 emits nothing and RSI=65.1 emits SELL. -/
theorem claim2_rsi_strategy :
    (∀ (data : List Candle) (ind : IndicatorSnapshot), data ≠ [] →
      ((ind.rsi < 25 →
          (rsiDivergenceStrategy data ind).map Signal.type = ["STRONG BUY"]) ∧
       (25 ≤ ind.rsi → ind.rsi < 35 →
          (rsiDivergenceStrategy data ind).map Signal.type = ["BUY"]) ∧
       (75 < ind.rsi →
          (rsiDivergenceStrategy data ind).map Signal.type = ["STRONG SELL"]) ∧
       (65 < ind.rsi → ind.rsi ≤ 75 →
          (rsiDivergenceStrategy data ind).map Signal.type = ["SELL"]) ∧
       (35 ≤ ind.rsi → ind.rsi ≤ 65 →
          (rsiDivergenceStrategy data ind).map Signal.type = []))) ∧
    (rsiDivergenceStrategy [defaultCandle] (rsiSnap 65)).map Signal.type = [] ∧
    (rsiDivergenceStrategy [defaultCandle] (rsiSnap 65.1)).map Signal.type = ["SELL"] := by
  have hgen : ∀ (data : List Candle) (ind : IndicatorSnapshot), data ≠ [] →
      ((ind.rsi < 25 →
          (rsiDivergenceStrategy data ind).map Signal.type = ["STRONG BUY"]) ∧
       (25 ≤ ind.rsi → ind.rsi < 35 →
          (rsiDivergenceStrategy data ind).map Signal.type = ["BUY"]) ∧
       (75 < ind.rsi →
          (rsiDivergenceStrategy data ind).map Signal.type = ["STRONG SELL"]) ∧
       (65 < ind.rsi → ind.rsi ≤ 75 →
          (rsiDivergenceStrategy data ind).map Signal.type = ["SELL"]) ∧
       (35 ≤ ind.rsi → ind.rsi ≤ 65 →
          (rsiDivergenceStrategy data ind).map Signal.type = [])) := by
    intro data ind _
    refine ⟨fun h1 => ?_, fun h1 h2 => ?_, fun h1 => ?_, fun h1 h2 => ?_, fun h1 h2 => ?_⟩
    · simp [rsiDivergenceStrategy, h1]
    · simp [rsiDivergenceStrategy, h2, not_lt.mpr h1]
    · have hn25 : ¬ ind.rsi < 25 := by linarith
      have hn35 : ¬ ind.rsi < 35 := by linarith
      simp [rsiDivergenceStrategy, h1, hn25, hn35]
    · have hn25 : ¬ ind.rsi < 25 := by linarith
      have hn35 : ¬ ind.rsi < 35 := by linarith
      have hn75 : ¬ ind.rsi > 75 := by linarith
      simp [rsiDivergenceStrategy, h1, hn25, hn35, hn75]
    · have hn25 : ¬ ind.rsi < 25 := by linarith
      have hn35 : ¬ ind.rsi < 35 := by linarith
      have hn75 : ¬ ind.rsi > 75 := by linarith
      have hn65 : ¬ ind.rsi > 65 := by linarith
      simp [rsiDivergenceStrategy, hn25, hn35, hn75, hn65]
  refine ⟨hgen, ?_, ?_⟩
  · exact (hgen [defaultCandle] (rsiSnap 65) (by simp)).2.2.2.2
      (by norm_num [rsiSnap, zeroSnapshot]) (by norm_num [rsiSnap, zeroSnapshot])
  · exact (hgen [defaultCandle] (rsiSnap 65.1) (by simp)).2.2.2.1
      (by norm_num [rsiSnap, zeroSnapshot]) (by norm_num [rsiSnap, zeroSnapshot])

/-- C2 witness: a concrete instantiation with RSI 0 (below 25) emits
exactly one STRONG BUY. -/
theorem claim2_rsi_strategy_witness :
    (rsiDivergenceStrategy [defaultCandle] (rsiSnap 0)).map Signal.type = ["STRONG BUY"] :=
  (claim2_rsi_strategy.1 [defaultCandle] (rsiSnap 0) (by simp)).1
    (by norm_num [rsiSnap, zeroSnapshot])

/-! ## C3: orchestrator error handling -/

/-- C3: analyzeCoin yields the no-result sentinel when the fetch fails,
when fewer than 200 candles are returned, or when the indicator engine
fails; being a total Option-valued function, it never propagates an
exception. -/
theorem claim3_orchestrator_no_result :
    ∀ (calcInd : List Candle → Option IndicatorSnapshot) (symbol : String) (now : Int),
      (analyzeCoin calcInd symbol none now = none) ∧
      (∀ data : List Candle, data.length < 200 →
        analyzeCoin calcInd symbol (some data) now = none) ∧
      (∀ data : List Candle, calcInd data = none →
        analyzeCoin calcInd symbol (some data) now = none) := by
  intro calcInd symbol now
  refine ⟨rfl, fun data h => ?_, fun data h => ?_⟩
  · simp [analyzeCoin, h]
  · by_cases hlen : data.length < 200
    · simp [analyzeCoin, hlen]
    · simp [analyzeCoin, hlen, h]

/-- C3 witness: the empty fetch result and a 0-candle fetch both produce
the no-result sentinel. -/
theorem claim3_orchestrator_no_result_witness :
    analyzeCoin (fun _ => none) "BTC/USDT" (some []) 0 = none :=
  (claim3_orchestrator_no_result (fun _ => none) "BTC/USDT" 0).2.1 [] (by decide)

end YenAiBot

namespace YenAiBot

/-! ## C4: support/resistance locator

The claim "null exactly when no qualifying candle exists" fails on the
code: `supportLevels[0] || null` (and likewise for resistance) also
yields null when the nearest qualifying level is the falsy number 0. -/

/-- A candle whose low is 0, strictly below the current price 5. -/
def zeroLowCandle : Candle := ⟨0, 0, 10, 0, 5, 0⟩

/-- C4 counterexample: with one candle of low 0 and current price 5 a
qualifying candle exists (low 0 < 5), yet the locator returns null for
support, refuting "null exactly when no qualifying candle exists". -/
theorem claim4_support_resistance_cex :
    supportOf [zeroLowCandle] 5 = none ∧
    zeroLowCandle ∈ jsSliceLast 50 [zeroLowCandle] ∧ zeroLowCandle.low < 5 := by
  decide

/-- If `arr[0] || null` on an ascending sort yields a value, that value
is a nonzero least element of the input. -/
theorem firstOrNull_sort_le_some (l : List ℚ) (x : ℚ)
    (h : jsFirstOrNull (List.insertionSort (fun a b => a ≤ b) l) = some x) :
    x ∈ l ∧ (∀ y ∈ l, x ≤ y) ∧ x ≠ 0 := by
  cases hL : List.insertionSort (fun a b : ℚ => a ≤ b) l with
  | nil => rw [hL] at h; simp [jsFirstOrNull] at h
  | cons a t =>
    rw [hL] at h
    simp only [jsFirstOrNull] at h
    by_cases ha : a = 0
    · rw [if_pos ha] at h; exact absurd h (by simp)
    · rw [if_neg ha] at h
      obtain rfl : a = x := by simpa using h
      have hhead : (List.insertionSort (fun a b : ℚ => a ≤ b) l).head? = some a := by
        rw [hL]; rfl
      obtain ⟨hm, hle⟩ := head_of_sort_le l a hhead
      exact ⟨hm, hle, ha⟩

/-- If `arr[0] || null` on an ascending sort yields null, the input is
empty or its least element is 0. -/
theorem firstOrNull_sort_le_none (l : List ℚ)
    (h : jsFirstOrNull (List.insertionSort (fun a b => a ≤ b) l) = none) :
    l = [] ∨ ((0:ℚ) ∈ l ∧ ∀ y ∈ l, (0:ℚ) ≤ y) := by
  cases hL : List.insertionSort (fun a b : ℚ => a ≤ b) l with
  | nil => exact Or.inl ((sort_eq_nil_iff _ _).mp hL)
  | cons a t =>
    rw [hL] at h
    simp only [jsFirstOrNull] at h
    by_cases ha : a = 0
    · right
      have hhead : (List.insertionSort (fun a b : ℚ => a ≤ b) l).head? = some a := by
        rw [hL]; rfl
      obtain ⟨hm, hle⟩ := head_of_sort_le l a hhead
      rw [ha] at hm hle
      exact ⟨hm, hle⟩
    · rw [if_neg ha] at h; exact absurd h (by simp)

/-- If `arr[0] || null` on a descending sort yields a value, that value
is a nonzero greatest element of the input. -/
theorem firstOrNull_sort_ge_some (l : List ℚ) (x : ℚ)
    (h : jsFirstOrNull (List.insertionSort (fun a b => a ≥ b) l) = some x) :
    x ∈ l ∧ (∀ y ∈ l, y ≤ x) ∧ x ≠ 0 := by
  cases hL : List.insertionSort (fun a b : ℚ => a ≥ b) l with
  | nil => rw [hL] at h; simp [jsFirstOrNull] at h
  | cons a t =>
    rw [hL] at h
    simp only [jsFirstOrNull] at h
    by_cases ha : a = 0
    · rw [if_pos ha] at h; exact absurd h (by simp)
    · rw [if_neg ha] at h
      obtain rfl : a = x := by simpa using h
      have hhead : (List.insertionSort (fun a b : ℚ => a ≥ b) l).head? = some a := by
        rw [hL]; rfl
      obtain ⟨hm, hle⟩ := head_of_sort_ge l a hhead
      exact ⟨hm, hle, ha⟩

/-- If `arr[0] || null` on a descending sort yields null, the input is
empty or its greatest element is 0. -/
theorem firstOrNull_sort_ge_none (l : List ℚ)
    (h : jsFirstOrNull (List.insertionSort (fun a b => a ≥ b) l) = none) :
    l = [] ∨ ((0:ℚ) ∈ l ∧ ∀ y ∈ l, y ≤ (0:ℚ)) := by
  cases hL : List.insertionSort (fun a b : ℚ => a ≥ b) l with
  | nil => exact Or.inl ((sort_eq_nil_iff _ _).mp hL)
  | cons a t =>
    rw [hL] at h
    simp only [jsFirstOrNull] at h
    by_cases ha : a = 0
    · right
      have hhead : (List.insertionSort (fun a b : ℚ => a ≥ b) l).head? = some a := by
        rw [hL]; rfl
      obtain ⟨hm, hle⟩ := head_of_sort_ge l a hhead
      rw [ha] at hm hle
      exact ⟨hm, hle⟩
    · rw [if_neg ha] at h; exact absurd h (by simp)

/-- The three-candle fixture of the spec: highs 105/110/120, lows
90/95/98. -/
def srFixture : List Candle :=
  [⟨0, 0, 105, 90, 100, 0⟩, ⟨0, 0, 110, 95, 100, 0⟩, ⟨0, 0, 120, 98, 100, 0⟩]

/-- C4 (amended): resistance is the smallest high strictly above the
current price among the trailing 50 candles and support the largest low
strictly below it, except that a side is null when no candle qualifies OR
when the nearest qualifying level equals 0 (JavaScript falsiness of 0 in
`levels[0] || null`); on the fixture, resistance is 105 and support 98. -/
theorem claim4_support_resistance :
    (∀ (data : List Candle) (p r : ℚ), resistanceOf data p = some r →
        (∃ c ∈ jsSliceLast 50 data, p < c.high ∧ c.high = r) ∧
        ∀ c ∈ jsSliceLast 50 data, p < c.high → r ≤ c.high) ∧
    (∀ (data : List Candle) (p : ℚ), resistanceOf data p = none →
        (∀ c ∈ jsSliceLast 50 data, ¬ p < c.high) ∨
        ((∃ c ∈ jsSliceLast 50 data, p < c.high ∧ c.high = 0) ∧
          ∀ c ∈ jsSliceLast 50 data, p < c.high → 0 ≤ c.high)) ∧
    (∀ (data : List Candle) (p r : ℚ), supportOf data p = some r →
        (∃ c ∈ jsSliceLast 50 data, c.low < p ∧ c.low = r) ∧
        ∀ c ∈ jsSliceLast 50 data, c.low < p → c.low ≤ r) ∧
    (∀ (data : List Candle) (p : ℚ), supportOf data p = none →
        (∀ c ∈ jsSliceLast 50 data, ¬ c.low < p) ∨
        ((∃ c ∈ jsSliceLast 50 data, c.low < p ∧ c.low = 0) ∧
          ∀ c ∈ jsSliceLast 50 data, c.low < p → c.low ≤ 0)) ∧
    resistanceOf srFixture 100 = some 105 ∧ supportOf srFixture 100 = some 98 := by
  have memHigh : ∀ (data : List Candle) (p x : ℚ),
      x ∈ ((jsSliceLast 50 data).filter (fun d => decide (d.high > p))).map Candle.high ↔
        ∃ c ∈ jsSliceLast 50 data, p < c.high ∧ c.high = x := by
    intro data p x
    simp [List.mem_map, List.mem_filter, gt_iff_lt, and_assoc]
  have memLow : ∀ (data : List Candle) (p x : ℚ),
      x ∈ ((jsSliceLast 50 data).filter (fun d => decide (d.low < p))).map Candle.low ↔
        ∃ c ∈ jsSliceLast 50 data, c.low < p ∧ c.low = x := by
    intro data p x
    simp [List.mem_map, List.mem_filter, and_assoc]
  refine ⟨?_, ?_, ?_, ?_, by decide, by decide⟩
  · intro data p r h
    obtain ⟨hm, hle, -⟩ := firstOrNull_sort_le_some _ r h
    exact ⟨(memHigh data p r).mp hm,
      fun c hc hpc => hle c.high ((memHigh data p c.high).mpr ⟨c, hc, hpc, rfl⟩)⟩
  · intro data p h
    rcases firstOrNull_sort_le_none _ h with hnil | ⟨hm, hle⟩
    · left
      intro c hc hpc
      have : c.high ∈ ((jsSliceLast 50 data).filter (fun d => decide (d.high > p))).map Candle.high :=
        (memHigh data p c.high).mpr ⟨c, hc, hpc, rfl⟩
      rw [hnil] at this
      exact absurd this (List.not_mem_nil _)
    · right
      exact ⟨(memHigh data p 0).mp hm,
        fun c hc hpc => hle c.high ((memHigh data p c.high).mpr ⟨c, hc, hpc, rfl⟩)⟩
  · intro data p r h
    obtain ⟨hm, hle, -⟩ := firstOrNull_sort_ge_some _ r h
    exact ⟨(memLow data p r).mp hm,
      fun c hc hpc => hle c.low ((memLow data p c.low).mpr ⟨c, hc, hpc, rfl⟩)⟩
  · intro data p h
    rcases firstOrNull_sort_ge_none _ h with hnil | ⟨hm, hle⟩
    · left
      intro c hc hpc
      have : c.low ∈ ((jsSliceLast 50 data).filter (fun d => decide (d.low < p))).map Candle.low :=
        (memLow data p c.low).mpr ⟨c, hc, hpc, rfl⟩
      rw [hnil] at this
      exact absurd this (List.not_mem_nil _)
    · right
      exact ⟨(memLow data p 0).mp hm,
        fun c hc hpc => hle c.low ((memLow data p c.low).mpr ⟨c, hc, hpc, rfl⟩)⟩

/-- C4 witness: on the fixture the amended theorem instantiates to the
smallest-high characterization of resistance 105. -/
theorem claim4_support_resistance_witness :
    (∃ c ∈ jsSliceLast 50 srFixture, (100:ℚ) < c.high ∧ c.high = 105) ∧
    ∀ c ∈ jsSliceLast 50 srFixture, (100:ℚ) < c.high → (105:ℚ) ≤ c.high :=
  claim4_support_resistance.1 srFixture 100 105 (by decide)

end YenAiBot

namespace YenAiBot

/-! ## C5: volume breakout strategy -/

/-- The current candle, `data[data.length - 1]`. -/
def claimCurrent (data : List Candle) : Candle :=
  data.getD (data.length - 1) defaultCandle

/-- The immediately preceding candle, `data[data.length - 2]`. -/
def claimPrev (data : List Candle) : Candle :=
  data.getD (data.length - 2) defaultCandle

/-- The claim's average volume: mean volume of the last 20 candles,
current included. -/
def claimAvgVol (data : List Candle) : ℚ :=
  ((jsSliceLast 20 data).map Candle.volume).sum / 20

/-- The claim's percent price change of the current close versus the
immediately preceding close. -/
def claimPriceChange (data : List Candle) : ℚ :=
  ((claimCurrent data).close - (claimPrev data).close) / (claimPrev data).close * 100

/-- C5: with at least 21 candles, the volume breakout strategy emits
STRONG BUY exactly when current volume exceeds twice the 20-candle
average (current candle included) and the close rose more than 2% versus
the preceding close, STRONG SELL exactly when the same volume spike meets
a drop below -2%, and nothing otherwise; with fewer than 21 candles it
returns the empty list. -/
theorem claim5_volume_breakout :
    (∀ data : List Candle, data.length < 21 → volumeBreakoutStrategy data = []) ∧
    (∀ data : List Candle, 21 ≤ data.length →
      (((volumeBreakoutStrategy data).map Signal.type = ["STRONG BUY"]) ↔
          ((claimCurrent data).volume > claimAvgVol data * 2 ∧ claimPriceChange data > 2)) ∧
      (((volumeBreakoutStrategy data).map Signal.type = ["STRONG SELL"]) ↔
          ((claimCurrent data).volume > claimAvgVol data * 2 ∧ claimPriceChange data < -2)) ∧
      (((volumeBreakoutStrategy data).map Signal.type = []) ↔
          (¬((claimCurrent data).volume > claimAvgVol data * 2 ∧ claimPriceChange data > 2) ∧
           ¬((claimCurrent data).volume > claimAvgVol data * 2 ∧ claimPriceChange data < -2)))) := by
  constructor
  · intro data h
    simp [volumeBreakoutStrategy, h]
  · intro data h21
    have hfold : ((jsSliceLast 20 data).foldl (fun sum d => sum + d.volume) 0) / 20 =
        claimAvgVol data := by
      rw [foldl_add_map Candle.volume (jsSliceLast 20 data) 0, zero_add]
      rfl
    have hbody : volumeBreakoutStrategy data =
        (if (claimCurrent data).volume > claimAvgVol data * 2 then
          (if claimPriceChange data > 2 then
            [⟨"STRONG BUY", "High volume breakout"⟩]
          else if claimPriceChange data < -2 then
            [⟨"STRONG SELL", "High volume breakdown"⟩]
          else [])
        else []) := by
      simp only [volumeBreakoutStrategy, if_neg (not_lt.mpr h21)]
      rw [hfold]
      rfl
    rw [hbody]
    split_ifs with h1 h2 h3
    · exact ⟨⟨fun _ => ⟨h1, h2⟩, fun _ => rfl⟩,
        ⟨fun hx => absurd hx (by decide), fun hx => absurd hx.2 (by linarith)⟩,
        ⟨fun hx => absurd hx (by decide), fun hx => absurd ⟨h1, h2⟩ hx.1⟩⟩
    · exact ⟨⟨fun hx => absurd hx (by decide), fun hx => absurd hx.2 h2⟩,
        ⟨fun _ => ⟨h1, h3⟩, fun _ => rfl⟩,
        ⟨fun hx => absurd hx (by decide), fun hx => absurd ⟨h1, h3⟩ hx.2⟩⟩
    · exact ⟨⟨fun hx => absurd hx (by decide), fun hx => absurd hx.2 h2⟩,
        ⟨fun hx => absurd hx (by decide), fun hx => absurd hx.2 h3⟩,
        ⟨fun _ => ⟨fun hc => h2 hc.2, fun hc => h3 hc.2⟩, fun _ => rfl⟩⟩
    · exact ⟨⟨fun hx => absurd hx (by decide), fun hx => absurd hx.1 h1⟩,
        ⟨fun hx => absurd hx (by decide), fun hx => absurd hx.1 h1⟩,
        ⟨fun _ => ⟨fun hc => h1 hc.1, fun hc => h1 hc.1⟩, fun _ => rfl⟩⟩

end YenAiBot

namespace YenAiBot

/-- A quiet candle: volume 100, close 100. -/
def vbBase : Candle := ⟨0, 0, 0, 0, 100, 100⟩

/-- A spike candle: volume 250, close 103 (+3% over 100). -/
def vbSpike : Candle := ⟨0, 0, 0, 0, 103, 250⟩

/-- 20 quiet candles followed by the spike: the spec's breakout fixture. -/
def vbFixture : List Candle :=
  [vbBase, vbBase, vbBase, vbBase, vbBase, vbBase, vbBase, vbBase, vbBase, vbBase,
   vbBase, vbBase, vbBase, vbBase, vbBase, vbBase, vbBase, vbBase, vbBase, vbBase,
   vbSpike]

/-- C5 witness: on the 21-candle fixture the volume spike with a +3%
move emits exactly one STRONG BUY. -/
theorem claim5_volume_breakout_witness :
    (volumeBreakoutStrategy vbFixture).map Signal.type = ["STRONG BUY"] := by
  have h21 : (21:ℕ) ≤ vbFixture.length := by decide
  have hcur : claimCurrent vbFixture = vbSpike := by decide
  have hprev : claimPrev vbFixture = vbBase := by decide
  have hslice : jsSliceLast 20 vbFixture =
      [vbBase, vbBase, vbBase, vbBase, vbBase, vbBase, vbBase, vbBase, vbBase, vbBase,
       vbBase, vbBase, vbBase, vbBase, vbBase, vbBase, vbBase, vbBase, vbBase, vbSpike] := by
    decide
  have havg : claimAvgVol vbFixture = 2150 / 20 := by
    rw [claimAvgVol, hslice]
    norm_num [vbBase, vbSpike]
  have hvol : (claimCurrent vbFixture).volume > claimAvgVol vbFixture * 2 := by
    rw [hcur, havg]
    norm_num [vbSpike]
  have hchg : claimPriceChange vbFixture > 2 := by
    rw [claimPriceChange, hcur, hprev]
    norm_num [vbBase, vbSpike]
  exact ((claim5_volume_breakout.2 vbFixture h21).1).mpr ⟨hvol, hchg⟩

/-! ## C6: MACD strategy -/

/-- C6: the MACD strategy emits BUY exactly when the MACD line is above
the signal line with positive histogram, SELL exactly when it is below
with negative histogram, and nothing in every other case. -/
theorem claim6_macd_strategy :
    ∀ (data : List Candle) (ind : IndicatorSnapshot),
      (((macdCrossoverStrategy data ind).map Signal.type = ["BUY"]) ↔
          (ind.macd.MACD > ind.macd.signal ∧ ind.macd.histogram > 0)) ∧
      (((macdCrossoverStrategy data ind).map Signal.type = ["SELL"]) ↔
          (ind.macd.MACD < ind.macd.signal ∧ ind.macd.histogram < 0)) ∧
      (((macdCrossoverStrategy data ind).map Signal.type = []) ↔
          (¬(ind.macd.MACD > ind.macd.signal ∧ ind.macd.histogram > 0) ∧
           ¬(ind.macd.MACD < ind.macd.signal ∧ ind.macd.histogram < 0))) := by
  intro data ind
  simp only [macdCrossoverStrategy]
  split_ifs with h1 h2
  · exact ⟨⟨fun _ => h1, fun _ => rfl⟩,
      ⟨fun hx => absurd hx (by decide), fun hx => absurd hx.1 (lt_asymm h1.1)⟩,
      ⟨fun hx => absurd hx (by decide), fun hx => absurd h1 hx.1⟩⟩
  · exact ⟨⟨fun hx => absurd hx (by decide), fun hx => absurd hx h1⟩,
      ⟨fun _ => h2, fun _ => rfl⟩,
      ⟨fun hx => absurd hx (by decide), fun hx => absurd h2 hx.2⟩⟩
  · exact ⟨⟨fun hx => absurd hx (by decide), fun hx => absurd hx h1⟩,
      ⟨fun hx => absurd hx (by decide), fun hx => absurd hx h2⟩,
      ⟨fun _ => ⟨h1, h2⟩, fun _ => rfl⟩⟩

/-- A snapshot with given MACD triple and zeros elsewhere. -/
def macdSnap (m s h : ℚ) : IndicatorSnapshot := { zeroSnapshot with macd := ⟨m, s, h⟩ }

/-- C6 witness: MACD 1.0 above signal 0.5 with histogram 0.5 emits
exactly one BUY. -/
theorem claim6_macd_strategy_witness :
    (macdCrossoverStrategy [] (macdSnap 1 (1/2) (1/2))).map Signal.type = ["BUY"] :=
  ((claim6_macd_strategy [] (macdSnap 1 (1/2) (1/2))).1).mpr
    (by norm_num [macdSnap, zeroSnapshot])

end YenAiBot

namespace YenAiBot

/-! ## C7: indicator engine degrade-gracefully policy -/

/-- C7: the indicator engine always produces a snapshot (its only
failure mode is an internal library error, which a total model cannot
raise; short input never fails), and every indicator whose computed
series is empty is replaced by its documented zero default. -/
theorem claim7_indicator_defaults :
    ∀ (lib : TILib) (data : List Candle),
      (calculateIndicators lib data).isSome = true ∧
      (∀ snap : IndicatorSnapshot, calculateIndicators lib data = some snap →
        ((lib.rsi (closesOf data) = [] → snap.rsi = 0) ∧
         (lib.macd (closesOf data) = [] → snap.macd = ⟨0, 0, 0⟩) ∧
         (lib.bb (closesOf data) = [] → snap.bb = ⟨0, 0, 0⟩) ∧
         (lib.sma 20 (closesOf data) = [] → snap.sma20 = 0) ∧
         (lib.sma 50 (closesOf data) = [] → snap.sma50 = 0) ∧
         (lib.sma 200 (closesOf data) = [] → snap.sma200 = 0) ∧
         (lib.ema 12 (closesOf data) = [] → snap.ema12 = 0) ∧
         (lib.ema 26 (closesOf data) = [] → snap.ema26 = 0) ∧
         (lib.stoch (highsOf data) (lowsOf data) (closesOf data) = [] → snap.stoch = ⟨0, 0⟩) ∧
         (lib.atr (highsOf data) (lowsOf data) (closesOf data) = [] → snap.atr = 0))) := by
  intro lib data
  refine ⟨rfl, fun snap h => ?_⟩
  simp only [calculateIndicators, Option.some.injEq] at h
  subst h
  refine ⟨fun he => ?_, fun he => ?_, fun he => ?_, fun he => ?_, fun he => ?_,
    fun he => ?_, fun he => ?_, fun he => ?_, fun he => ?_, fun he => ?_⟩ <;>
    simp [he]

/-- The degenerate library whose every series is empty. -/
def emptyLib : TILib :=
  { rsi := fun _ => [], macd := fun _ => [], bb := fun _ => [],
    sma := fun _ _ => [], ema := fun _ _ => [],
    stoch := fun _ _ _ => [], atr := fun _ _ _ => [] }

/-- C7 witness: with every series empty (no candles), the engine still
succeeds and the snapshot is all zero defaults. -/
theorem claim7_indicator_defaults_witness :
    calculateIndicators emptyLib [] = some zeroSnapshot ∧ zeroSnapshot.rsi = 0 ∧
      zeroSnapshot.macd = ⟨0, 0, 0⟩ :=
  ⟨rfl, ((claim7_indicator_defaults emptyLib []).2 zeroSnapshot rfl).1 rfl,
    (((claim7_indicator_defaults emptyLib []).2 zeroSnapshot rfl).2.1) rfl⟩

/-! ## C8: determinism and statelessness -/

/-- C8: the pipeline is pure: the indicator computation is deterministic
on identical input, and two runs of the whole analysis on the same frozen
candle window agree on every field except the timestamp. -/
theorem claim8_deterministic :
    ∀ (lib : TILib) (data : List Candle)
      (calcInd : List Candle → Option IndicatorSnapshot) (symbol : String)
      (fetchResult : Option (List Candle)) (now1 now2 : Int),
      calculateIndicators lib data = calculateIndicators lib data ∧
      (analyzeCoin calcInd symbol fetchResult now1).map stripTimestamp =
        (analyzeCoin calcInd symbol fetchResult now2).map stripTimestamp := by
  intro lib data calcInd symbol fetchResult now1 now2
  refine ⟨rfl, ?_⟩
  cases fetchResult with
  | none => rfl
  | some d =>
    simp only [analyzeCoin]
    split
    · rfl
    · split
      · rfl
      · split
        · rfl
        · rfl

/-! ## C9: signal count and score bounds -/

/-- Each per-signal contribution lies in [-3, 3]. -/
theorem signalScore_bounds (s : Signal) : -3 ≤ signalScore s ∧ signalScore s ≤ 3 := by
  unfold signalScore
  split_ifs <;> norm_num

/-- The summed contributions of a signal list lie in
[-3·length, 3·length]. -/
theorem claimScore_bounds :
    ∀ l : List Signal, -(3 * (l.length : Int)) ≤ (l.map signalScore).sum ∧
      (l.map signalScore).sum ≤ 3 * (l.length : Int)
  | [] => by simp
  | s :: t => by
    obtain ⟨ih1, ih2⟩ := claimScore_bounds t
    obtain ⟨hs1, hs2⟩ := signalScore_bounds s
    simp only [List.map_cons, List.sum_cons, List.length_cons]
    push_cast
    constructor <;> linarith

/-- C9: every strategy emits at most one signal, the combined list has at
most 4 signals, and the sentiment score lies in [-12, 12]. -/
theorem claim9_signal_bounds :
    ∀ (data : List Candle) (ind : IndicatorSnapshot),
      (rsiDivergenceStrategy data ind).length ≤ 1 ∧
      (macdCrossoverStrategy data ind).length ≤ 1 ∧
      (bollingerBandsStrategy data ind).length ≤ 1 ∧
      (volumeBreakoutStrategy data).length ≤ 1 ∧
      (allSignalsOf data ind).length ≤ 4 ∧
      -12 ≤ (analyzeSentiment (allSignalsOf data ind)).score ∧
      (analyzeSentiment (allSignalsOf data ind)).score ≤ 12 := by
  intro data ind
  have h1 : (rsiDivergenceStrategy data ind).length ≤ 1 := by
    simp only [rsiDivergenceStrategy]
    split_ifs <;> simp
  have h2 : (macdCrossoverStrategy data ind).length ≤ 1 := by
    simp only [macdCrossoverStrategy]
    split_ifs <;> simp
  have h3 : (bollingerBandsStrategy data ind).length ≤ 1 := by
    simp only [bollingerBandsStrategy]
    split_ifs <;> simp
  have h4 : (volumeBreakoutStrategy data).length ≤ 1 := by
    simp only [volumeBreakoutStrategy]
    split_ifs <;> simp
  have h5 : (allSignalsOf data ind).length ≤ 4 := by
    simp only [allSignalsOf, List.length_append]
    omega
  have hscore : (analyzeSentiment (allSignalsOf data ind)).score =
      ((allSignalsOf data ind).map signalScore).sum := by
    simp only [analyzeSentiment]
    rw [foldl_add_map signalScore (allSignalsOf data ind) 0, zero_add]
  obtain ⟨hb1, hb2⟩ := claimScore_bounds (allSignalsOf data ind)
  have hlen : ((allSignalsOf data ind).length : Int) ≤ 4 := by exact_mod_cast h5
  refine ⟨h1, h2, h3, h4, h5, ?_, ?_⟩ <;> rw [hscore] <;> linarith

/-! ## C10: watchlist set semantics -/

/-- C10: adding a present symbol leaves the watchlist unchanged (add is
idempotent and preserves freedom from duplicates), and removal keeps
exactly the entries different from the symbol. -/
theorem claim10_watchlist :
    ∀ (wl : List String) (s : String),
      (s ∈ wl → watchlistAdd wl s = wl) ∧
      watchlistAdd (watchlistAdd wl s) s = watchlistAdd wl s ∧
      (wl.Nodup → (watchlistAdd wl s).Nodup) ∧
      (∀ x, x ∈ watchlistRemove wl s ↔ (x ∈ wl ∧ x ≠ s)) := by
  intro wl s
  have hmem : ∀ (l : List String) (a : String), l.contains a = true ↔ a ∈ l := by
    intro l a
    exact List.elem_iff
  have hadd : s ∈ wl → watchlistAdd wl s = wl := by
    intro h
    simp only [watchlistAdd]
    rw [if_pos ((hmem wl s).mpr h)]
  refine ⟨hadd, ?_, ?_, ?_⟩
  · by_cases h : s ∈ wl
    · rw [hadd h, hadd h]
    · have hnot : ¬ wl.contains s = true := fun hc => h ((hmem wl s).mp hc)
      simp only [watchlistAdd]
      rw [if_neg hnot]
      rw [if_pos ((hmem (wl ++ [s]) s).mpr (by simp))]
  · intro hnd
    simp only [watchlistAdd]
    split_ifs with hc
    · exact hnd
    · have hnot : s ∉ wl := fun h => hc ((hmem wl s).mpr h)
      simp [List.nodup_append, hnd, hnot]
  · intro x
    simp [watchlistRemove, List.mem_filter, bne_iff_ne]

/-- C10 witness: adding an already-present symbol changes nothing. -/
theorem claim10_watchlist_witness :
    watchlistAdd ["BTC/USDT"] "BTC/USDT" = ["BTC/USDT"] :=
  (claim10_watchlist ["BTC/USDT"] "BTC/USDT").1 (by simp)

end YenAiBot
